import Mathlib

/-!
Shallow embedding of the resumable chunked-transfer pipeline of the
telegram-bot repository (`bot_render.py`, `bot_render_ram_optimized.py`).

File names and MIME strings are modelled as `List Char`; a Python string
is its list of characters.
-/

/-- Characters of a string literal, the representation used for file
names and MIME types throughout this development. -/
def chars (s : String) : List Char := s.data

/-- `file_name.endswith(t)` from Python: the last `t.length` characters
of `s` are exactly `t`. -/
def endsWithL (s t : List Char) : Bool := s.drop (s.length - t.length) == t

/-- Index of the last occurrence of `c` in `s`, if any. -/
def lastIdxOf (c : Char) (s : List Char) : Option Nat :=
  match s.reverse.findIdx? (· == c) with
  | none => none
  | some i => some (s.length - 1 - i)

/-- `posixpath.splitext` extension of a file name: the part from the
last dot, provided the dot lies after the last path separator and at
least one non-dot character of the base name precedes it (so a leading
dot of a hidden file does not start an extension). -/
def extOf (s : List Char) : List Char :=
  match lastIdxOf '.' s with
  | none => []
  | some d =>
    let b : Nat :=
      match lastIdxOf '/' s with
      | none => 0
      | some i => i + 1
    if b < d then
      if ((s.drop b).take (d - b)).any (· != '.') then s.drop d else []
    else []

/-- Representative slice of the standard `mimetypes` extension table
consulted by `mimetypes.guess_type` (Python standard library, external
to the repository), keyed by the lower-cased extension. -/
def stdMimeTypes : List (List Char × List Char) :=
  [ (chars (".jpg"), chars ("image/jpeg"))
  , (chars (".jpeg"), chars ("image/jpeg"))
  , (chars (".png"), chars ("image/png"))
  , (chars (".pdf"), chars ("application/pdf"))
  , (chars (".mp4"), chars ("video/mp4"))
  , (chars (".avi"), chars ("video/x-msvideo"))
  , (chars (".mov"), chars ("video/quicktime"))
  , (chars (".mp3"), chars ("audio/mpeg"))
  , (chars (".ogg"), chars ("audio/ogg"))
  , (chars (".gif"), chars ("image/gif"))
  , (chars (".txt"), chars ("text/plain"))
  , (chars (".zip"), chars ("application/zip"))
  , (chars (".doc"), chars ("application/msword"))
  , (chars (".wav"), chars ("audio/x-wav")) ]

/-- `mimetypes.guess_type(file_name)`: look the lower-cased extension up
in the standard table. -/
def guessType (name : List Char) : Option (List Char) :=
  stdMimeTypes.lookup ((extOf name).map Char.toLower)

/-- MIME-type derivation of `GoogleDriveUploader.upload_chunked_file`:
`mimetypes.guess_type` first, then the source's explicit `endswith`
fallback chain, then `application/octet-stream`. -/
def mimeTypeOf (name : List Char) : List Char :=
  match guessType name with
  | some t => t
  | none =>
    if endsWithL name (chars (".jpg")) || endsWithL name (chars (".jpeg")) then chars ("image/jpeg")
    else if endsWithL name (chars (".png")) then chars ("image/png")
    else if endsWithL name (chars (".pdf")) then chars ("application/pdf")
    else if endsWithL name (chars (".mp4")) || endsWithL name (chars (".avi")) ||
        endsWithL name (chars (".mov")) then chars ("video/mp4")
    else if endsWithL name (chars (".mp3")) then chars ("audio/mpeg")
    else if endsWithL name (chars (".ogg")) then chars ("audio/ogg")
    else if endsWithL name (chars (".gif")) then chars ("image/gif")
    else chars ("application/octet-stream")

/-- The extensions of the source's explicit fallback chain. -/
def fallbackExtHit (name : List Char) : Bool :=
  endsWithL name (chars (".jpg")) || endsWithL name (chars (".jpeg")) ||
  endsWithL name (chars (".png")) || endsWithL name (chars (".pdf")) ||
  endsWithL name (chars (".mp4")) || endsWithL name (chars (".avi")) ||
  endsWithL name (chars (".mov")) || endsWithL name (chars (".mp3")) ||
  endsWithL name (chars (".ogg")) || endsWithL name (chars (".gif"))

/-- The `MediaFileUpload` value built by `upload_chunked_file`. -/
structure MediaUpload where
  mimetype : List Char
  chunksize : Nat
  resumable : Bool
deriving DecidableEq

/-- `MediaFileUpload(file_path, mimetype=mime_type, chunksize=8*1024*1024,
resumable=True)` as constructed in `upload_chunked_file`. -/
def mkMedia (name : List Char) : MediaUpload :=
  { mimetype := mimeTypeOf name, chunksize := 8 * 1024 * 1024, resumable := true }

/-! ## Chunked resumable upload loop (`upload_chunked_file`) -/

/-- Outcome of one `request.next_chunk()` call as seen by the caller:
the chunk was accepted, or an `HttpError` with the given status was
raised.  A lost acknowledgement of an accepted chunk surfaces as an
`err` (typically 5xx) even though the destination kept the bytes. -/
inductive ChunkOutcome
  | ok
  | err (status : Nat)
deriving DecidableEq

/-- Observable events of the upload loop.  The vocabulary includes
backoff sleeps and resume-cursor queries so that their absence from the
code's traces can be stated; the source never performs either. -/
inductive Ev
  | push (off len : Nat)
  | sleep (ms : Nat)
  | query
deriving DecidableEq

/-- Result of the `while response is None` loop of `upload_chunked_file`
in `bot_render.py`. `noResponse` is the `"Upload failed - no response
received"` exit taken when the loop guard fails with no response;
`starved` is a model artifact for an exhausted outcome schedule. -/
inductive LoopResult
  | completed
  | raisedHttp (status : Nat)
  | noResponse
  | starved
deriving DecidableEq

/-- `e.resp.status in [500, 502, 503, 504]` from the source. -/
def transientStatus (s : Nat) : Bool :=
  s == 500 || s == 502 || s == 503 || s == 504

/-- The retry loop of `upload_chunked_file` (`bot_render.py` lines
211-231), translated literally: `while response is None and
upload_attempts < max_attempts`, `max_attempts = 3`; a transient
`HttpError` increments `upload_attempts` and re-raises once the count
reaches the ceiling; any other `HttpError` re-raises at once.  Each
`next_chunk` call pushes the byte range at the library's local cursor,
which advances only on success.  The returned event list records each
push; the loop body contains no sleep and no cursor re-query, so no
such event is ever emitted. -/
def uploadLoop (total chunk : Nat) : List ChunkOutcome → Nat → Nat → LoopResult × List Ev
  | [], _, _ => (.starved, [])
  | o :: rest, cursor, attempts =>
    if 3 ≤ attempts then (.noResponse, [])
    else
      let len := min chunk (total - cursor)
      match o with
      | .ok =>
        if total ≤ cursor + len then (.completed, [.push cursor len])
        else
          let r := uploadLoop total chunk rest (cursor + len) attempts
          (r.1, .push cursor len :: r.2)
      | .err s =>
        if transientStatus s then
          if 3 ≤ attempts + 1 then (.raisedHttp s, [.push cursor len])
          else
            let r := uploadLoop total chunk rest cursor (attempts + 1)
            (r.1, .push cursor len :: r.2)
        else (.raisedHttp s, [.push cursor len])

/-- The upload loop of `bot_render_ram_optimized.py` (lines 151-157):
`while response is None: status, response = request.next_chunk()` with
no retry handling at all — any `HttpError` propagates immediately. -/
def uploadLoopRam (total chunk : Nat) : List ChunkOutcome → Nat → LoopResult × List Ev
  | [], _ => (.starved, [])
  | o :: rest, cursor =>
    let len := min chunk (total - cursor)
    match o with
    | .ok =>
      if total ≤ cursor + len then (.completed, [.push cursor len])
      else
        let r := uploadLoopRam total chunk rest (cursor + len)
        (r.1, .push cursor len :: r.2)
    | .err s => (.raisedHttp s, [.push cursor len])

/-- Modelled from the claim's words (`C5`), for comparison only: the
same loop but with the attempt counter reset to zero after every
successfully confirmed chunk push, i.e. a per-chunk retry budget. -/
def uploadLoopPerChunkReset (total chunk : Nat) :
    List ChunkOutcome → Nat → Nat → LoopResult × List Ev
  | [], _, _ => (.starved, [])
  | o :: rest, cursor, attempts =>
    if 3 ≤ attempts then (.noResponse, [])
    else
      let len := min chunk (total - cursor)
      match o with
      | .ok =>
        if total ≤ cursor + len then (.completed, [.push cursor len])
        else
          let r := uploadLoopPerChunkReset total chunk rest (cursor + len) 0
          (r.1, .push cursor len :: r.2)
      | .err s =>
        if transientStatus s then
          if 3 ≤ attempts + 1 then (.raisedHttp s, [.push cursor len])
          else
            let r := uploadLoopPerChunkReset total chunk rest cursor (attempts + 1)
            (r.1, .push cursor len :: r.2)
        else (.raisedHttp s, [.push cursor len])

/-- Errors `upload_chunked_file` raises to its caller: the outer
`except HttpError` branch maps 403 and 400 to dedicated messages and
wraps any other status as a Google Drive API error. -/
inductive UploadError
  | permissionDenied
  | badRequest
  | apiError (status : Nat)
  | noResponse
deriving DecidableEq

/-- The outer `except HttpError` classification of `upload_chunked_file`
(`bot_render.py` lines 262-269). -/
def classifyHttp (s : Nat) : UploadError :=
  if s == 403 then .permissionDenied
  else if s == 400 then .badRequest
  else .apiError s

/-- The dictionary returned by `upload_chunked_file` on success. -/
structure DriveResult where
  link : Nat
  size : Nat
deriving DecidableEq

/-- `GoogleDriveUploader.upload_chunked_file` (`bot_render.py`): run the
retry loop from cursor 0 with zero attempts used; on completion, set the
public-read permission — that step sits in its own `try/except` whose
handler only logs a warning, so its outcome never influences the result
— then fetch the shareable link with `files().get`, whose `HttpError`
propagates through the outer classifier.  `linkStep` is the abstract
outcome of the link fetch (`.error s` = `HttpError` with status `s`). -/
def uploadChunkedFile (fileSize : Nat) (name : List Char) (sched : List ChunkOutcome)
    (permissionOk : Bool) (linkStep : Except Nat Nat) : Except UploadError DriveResult :=
  let media := mkMedia name
  match (uploadLoop fileSize media.chunksize sched 0 0).1 with
  | .completed =>
    match linkStep with
    | .ok l => .ok ⟨l, fileSize⟩
    | .error s => .error (classifyHttp s)
  | .raisedHttp s => .error (classifyHttp s)
  | .noResponse => .error .noResponse
  | .starved => .error .noResponse

/-! ## Staging store and transfer orchestrator
(`TelegramFileBot.handle_media`, `_upload_large_file_streaming`) -/

/-- A temporary path produced by `tempfile.NamedTemporaryFile`: a fresh
random token plus the fixed suffix; the declared file name plays no part
in it. -/
structure ScopedPath where
  token : Nat
  tail : List Char
deriving DecidableEq

def tempUploadTail : List Char := chars ("_telegram_upload")

/-- `tempfile.NamedTemporaryFile(delete=False, suffix='_telegram_upload')`:
the path is built from a fresh token and the fixed suffix only. -/
def namedTemporaryFile (token : Nat) : ScopedPath :=
  ⟨token, tempUploadTail⟩

/-- The on-disk state visible to the bot: the set of existing temporary
files and the next fresh token `tempfile` would hand out. -/
structure FS where
  files : List ScopedPath
  nextToken : Nat
deriving DecidableEq

/-- Entering the `with tempfile.NamedTemporaryFile(...)` block: a fresh
uniquely named file is created on disk. -/
def createTemp (fs : FS) : ScopedPath × FS :=
  let p := namedTemporaryFile fs.nextToken
  (p, ⟨p :: fs.files, fs.nextToken + 1⟩)

/-- The `finally` block (`bot_render.py` lines 494-501): when a staged
path exists, `os.remove` is attempted inside its own `try/except
Exception` whose handler only logs a warning — a failing removal is
swallowed and the staged file stays on disk.  `removeOk` is the outcome
of the `os.remove` call itself. -/
def finallyRemoveStaged (removeOk : Bool) (fs : FS) (p : ScopedPath) : FS :=
  if removeOk then ⟨fs.files.filter (· != p), fs.nextToken⟩ else fs

/-- Messages the user-facing handler sends or edits.  Only the payload
relevant to the claims is kept: the success report carries the Drive
link, other texts are presentation. -/
inductive Msg
  | largeFileWarning
  | processing
  | progressEdit
  | successReport (link : Nat)
  | errorReport
deriving DecidableEq

deriving instance DecidableEq for Except

/-- Abstract outcomes of the fallible operations of one transfer: the
`file.get_file()` call, the `download_to_drive` call, the result of
`uploader.upload_chunked_file`, and the `os.remove` of the `finally`
block. -/
structure TransferEnv where
  getFileOk : Bool
  downloadOk : Bool
  driveOutcome : Except UploadError DriveResult
  removeOk : Bool
deriving DecidableEq

/-- Result of `_upload_large_file_streaming`: the file system on return,
the messages edited onto the chat in order, and the staged temporary
path if one was created. -/
structure StreamResult where
  fs : FS
  msgs : List Msg
  staged : Option ScopedPath
deriving DecidableEq

/-- `TelegramFileBot._upload_large_file_streaming` (`bot_render.py`
lines 436-501): get the Telegram file handle, create the staged
temporary file, download into it, hand it to
`uploader.upload_chunked_file`, edit the chat message with exactly one
terminal text (success with link, or a descriptive error caught by the
`except` branch), and in `finally` attempt removal of the staged file if
it exists — a failure of that removal is caught and only logged, leaving
the file behind.  The declared `fileName` is used only inside message
texts and Drive metadata, never for the staged path. -/
def uploadLargeFileStreaming (env : TransferEnv) (fs : FS) (fileName : List Char) :
    StreamResult :=
  if env.getFileOk = false then
    { fs := fs, msgs := [.errorReport], staged := none }
  else
    let pf := createTemp fs
    if env.downloadOk = false then
      { fs := finallyRemoveStaged env.removeOk pf.2 pf.1
        msgs := [.progressEdit, .errorReport]
        staged := some pf.1 }
    else
      match env.driveOutcome with
      | .error _ =>
        { fs := finallyRemoveStaged env.removeOk pf.2 pf.1
          msgs := [.progressEdit, .progressEdit, .errorReport]
          staged := some pf.1 }
      | .ok r =>
        { fs := finallyRemoveStaged env.removeOk pf.2 pf.1
          msgs := [.progressEdit, .progressEdit, .successReport r.link]
          staged := some pf.1 }

/-- The media kinds `handle_media` recognises, plus the fallthrough
`else` branch. -/
inductive MediaType
  | document | photo | video | animation | audio | voice | other
deriving DecidableEq

/-- `50` MB in bytes: the threshold of the `file_size_mb > 50` check. -/
def telegramCap : Nat := 50 * 1024 * 1024

/-- `TelegramFileBot.handle_media` (`bot_render.py` lines 384-434): an
unsupported media type gets a single error reply; otherwise a size above
50 MB adds one warning message, a processing message is sent, and the
transfer runs via `_upload_large_file_streaming` for every size. -/
def handleMedia (mt : MediaType) (env : TransferEnv) (fs : FS)
    (fileName : List Char) (fileSize : Nat) : FS × List Msg :=
  match mt with
  | .other => (fs, [.errorReport])
  | _ =>
    let warn : List Msg := if telegramCap < fileSize then [.largeFileWarning] else []
    let r := uploadLargeFileStreaming env fs fileName
    (r.fs, warn ++ [.processing] ++ r.msgs)

/-- A terminal outcome visible to the user: the success report with the
link, or a descriptive error report. -/
def isTerminal : Msg → Bool
  | .successReport _ => true
  | .errorReport => true
  | _ => false

def isWarning : Msg → Bool
  | .largeFileWarning => true
  | _ => false

/-- The message list with the size warnings removed. -/
def dropWarnings (ms : List Msg) : List Msg :=
  ms.filter (fun m => !(isWarning m))

/-- Whether an event trace contains a backoff sleep. -/
def hasSleepEv (evs : List Ev) : Bool :=
  evs.any fun e => match e with | .sleep _ => true | _ => false

/-- Whether an event trace contains a resume-cursor query. -/
def hasQueryEv (evs : List Ev) : Bool :=
  evs.any fun e => match e with | .query => true | _ => false

/-- Number of transient chunk-push failures in an outcome schedule. -/
def transientErrCount : List ChunkOutcome → Nat
  | [] => 0
  | .ok :: rest => transientErrCount rest
  | .err s :: rest => (if transientStatus s then 1 else 0) + transientErrCount rest

theorem uploadLoop_no_sleep_ev (total chunk : Nat) (sched : List ChunkOutcome) :
    ∀ cursor attempts, hasSleepEv (uploadLoop total chunk sched cursor attempts).2 = false := by
  induction sched with
  | nil => intro c a; simp [uploadLoop, hasSleepEv]
  | cons o rest ih =>
    intro c a
    cases o with
    | ok =>
      by_cases hg : 3 ≤ a
      · simp [uploadLoop, hg, hasSleepEv]
      · by_cases hf : total ≤ c + min chunk (total - c)
        · simp [uploadLoop, hg, hf, hasSleepEv]
        · simpa [uploadLoop, hg, hf, hasSleepEv] using ih (c + min chunk (total - c)) a
    | err s =>
      by_cases hg : 3 ≤ a
      · simp [uploadLoop, hg, hasSleepEv]
      · by_cases ht : transientStatus s
        · by_cases hc : 3 ≤ a + 1
          · simp [uploadLoop, hg, ht, hc, hasSleepEv]
          · simpa [uploadLoop, hg, ht, hc, hasSleepEv] using ih c (a + 1)
        · simp [uploadLoop, hg, ht, hasSleepEv]

theorem uploadLoop_no_query_ev (total chunk : Nat) (sched : List ChunkOutcome) :
    ∀ cursor attempts, hasQueryEv (uploadLoop total chunk sched cursor attempts).2 = false := by
  induction sched with
  | nil => intro c a; simp [uploadLoop, hasQueryEv]
  | cons o rest ih =>
    intro c a
    cases o with
    | ok =>
      by_cases hg : 3 ≤ a
      · simp [uploadLoop, hg, hasQueryEv]
      · by_cases hf : total ≤ c + min chunk (total - c)
        · simp [uploadLoop, hg, hf, hasQueryEv]
        · simpa [uploadLoop, hg, hf, hasQueryEv] using ih (c + min chunk (total - c)) a
    | err s =>
      by_cases hg : 3 ≤ a
      · simp [uploadLoop, hg, hasQueryEv]
      · by_cases ht : transientStatus s
        · by_cases hc : 3 ≤ a + 1
          · simp [uploadLoop, hg, ht, hc, hasQueryEv]
          · simpa [uploadLoop, hg, ht, hc, hasQueryEv] using ih c (a + 1)
        · simp [uploadLoop, hg, ht, hasQueryEv]

/-! ## Claim theorems -/

theorem not_mem_finallyRemoveStaged_ok (fs : FS) (p : ScopedPath) :
    p ∉ (finallyRemoveStaged true fs p).files := by
  simp [finallyRemoveStaged, List.mem_filter]

/-- C1 counterexample: when the `os.remove` of the `finally` block
itself fails, the `except` handler around it only logs a warning, so on
an otherwise fully successful transfer the staged file still exists on
disk when `_upload_large_file_streaming` returns — the staged file does
outlive the transfer scope on that path. -/
theorem staged_file_survives_failed_remove :
    (uploadLargeFileStreaming ⟨true, true, .ok ⟨7, 5⟩, false⟩ ⟨[], 0⟩
        (chars ("a.txt"))).staged = some (namedTemporaryFile 0) ∧
    namedTemporaryFile 0 ∈
      (uploadLargeFileStreaming ⟨true, true, .ok ⟨7, 5⟩, false⟩ ⟨[], 0⟩
        (chars ("a.txt"))).fs.files := by
  decide

/-- C1 amended: on every exit path of `_upload_large_file_streaming` on
which a staged file was created — success, download failure, or upload
failure — the `finally` block attempts its removal: when `os.remove`
succeeds the staged file no longer exists on return, and when
`os.remove` fails the failure is swallowed (only logged) and the staged
file is still on disk. -/
theorem staged_file_removed_when_remove_succeeds
    (env : TransferEnv) (fs : FS) (fileName : List Char) (p : ScopedPath)
    (h : (uploadLargeFileStreaming env fs fileName).staged = some p) :
    (env.removeOk = true →
      p ∉ (uploadLargeFileStreaming env fs fileName).fs.files) ∧
    (env.removeOk = false →
      p ∈ (uploadLargeFileStreaming env fs fileName).fs.files) := by
  obtain ⟨g, d, o, rm⟩ := env
  cases g <;> cases d <;> rcases o with e | r <;>
    simp only [uploadLargeFileStreaming, createTemp, Bool.false_eq_true,
      Bool.true_eq_false, if_true, if_false, reduceIte,
      Option.some.injEq] at h ⊢ <;>
    first
      | (subst h
         cases rm <;>
           simp [finallyRemoveStaged, List.mem_filter])
      | exact absurd h (by simp)

theorem staged_file_removed_when_remove_succeeds_witness :
    (uploadLargeFileStreaming ⟨true, true, .ok ⟨7, 5⟩, true⟩ ⟨[], 0⟩
        (chars ("a.txt"))).staged = some (namedTemporaryFile 0) ∧
    namedTemporaryFile 0 ∉
      (uploadLargeFileStreaming ⟨true, true, .ok ⟨7, 5⟩, true⟩ ⟨[], 0⟩
        (chars ("a.txt"))).fs.files :=
  ⟨rfl,
    (staged_file_removed_when_remove_succeeds ⟨true, true, .ok ⟨7, 5⟩, true⟩ ⟨[], 0⟩
      (chars ("a.txt")) (namedTemporaryFile 0) rfl).1 rfl⟩

/-- C2 counterexample: a transient chunk-push failure is retried with no
backoff whatever — the completed run `[err 500, ok]` makes two
successive push attempts and its event trace contains no sleep at all,
so there is no exponential backoff between attempts. -/
theorem no_backoff_between_retry_attempts :
    (uploadLoop 5 (8 * 1024 * 1024) [.err 500, .ok] 0 0).1 = .completed ∧
    (uploadLoop 5 (8 * 1024 * 1024) [.err 500, .ok] 0 0).2 = [.push 0 5, .push 0 5] ∧
    hasSleepEv (uploadLoop 5 (8 * 1024 * 1024) [.err 500, .ok] 0 0).2 = false := by
  decide

/-- C2 amended: a transient chunk-push failure (HTTP 500/502/503/504) is
retried immediately, with no delay between attempts, while fewer than 3
transient failures have occurred; the third transient failure re-raises
the HTTP error, which the outer handler wraps as a Google Drive API
error; and no run of the loop ever sleeps. -/
theorem transient_retry_immediate_up_to_ceiling
    (total chunk s cursor attempts : Nat) (rest sched : List ChunkOutcome)
    (ht : transientStatus s = true) :
    (attempts + 1 < 3 →
      uploadLoop total chunk (.err s :: rest) cursor attempts =
        ((uploadLoop total chunk rest cursor (attempts + 1)).1,
          .push cursor (min chunk (total - cursor)) ::
            (uploadLoop total chunk rest cursor (attempts + 1)).2)) ∧
    (attempts < 3 → 3 ≤ attempts + 1 →
      uploadLoop total chunk (.err s :: rest) cursor attempts =
        (.raisedHttp s, [.push cursor (min chunk (total - cursor))])) ∧
    hasSleepEv (uploadLoop total chunk sched cursor attempts).2 = false ∧
    classifyHttp s = .apiError s := by
  refine ⟨?_, ?_, uploadLoop_no_sleep_ev total chunk sched cursor attempts, ?_⟩
  · intro hc
    have h0 : ¬ 3 ≤ attempts := by omega
    have h1 : ¬ 3 ≤ attempts + 1 := by omega
    simp [uploadLoop, h0, h1, ht]
  · intro ha hc
    have h0 : ¬ 3 ≤ attempts := by omega
    simp [uploadLoop, h0, hc, ht]
  · have hs : ((s = 500 ∨ s = 502) ∨ s = 503) ∨ s = 504 := by
      simpa [transientStatus] using ht
    rcases hs with ((rfl | rfl) | rfl) | rfl <;> rfl

theorem transient_retry_immediate_up_to_ceiling_witness :
    uploadLoop 10 8 [.err 500, .ok, .ok] 0 0 =
      ((uploadLoop 10 8 [.ok, .ok] 0 1).1,
        .push 0 8 :: (uploadLoop 10 8 [.ok, .ok] 0 1).2) :=
  (transient_retry_immediate_up_to_ceiling 10 8 500 0 0 [.ok, .ok] [.err 500, .ok, .ok]
    (by decide)).1 (by decide)

/-- C3: a chunk-push failure with a status outside {500, 502, 503, 504}
is never retried — the loop stops at that very push in both
`bot_render.py` and `bot_render_ram_optimized.py`, consuming nothing
further, and `upload_chunked_file` propagates the classified error to
its caller. -/
theorem permanent_error_propagates_without_retry
    (total chunk s cursor attempts : Nat) (rest : List ChunkOutcome)
    (name : List Char) (permissionOk : Bool) (linkStep : Except Nat Nat)
    (hs : transientStatus s = false) (ha : attempts < 3) :
    uploadLoop total chunk (.err s :: rest) cursor attempts
        = (.raisedHttp s, [.push cursor (min chunk (total - cursor))]) ∧
    uploadLoopRam total chunk (.err s :: rest) cursor
        = (.raisedHttp s, [.push cursor (min chunk (total - cursor))]) ∧
    uploadChunkedFile total name (.err s :: rest) permissionOk linkStep
        = .error (classifyHttp s) := by
  have h0 : ¬ 3 ≤ attempts := by omega
  refine ⟨?_, rfl, ?_⟩
  · simp [uploadLoop, h0, hs]
  · have h1 : ¬ (3 : Nat) ≤ 0 := by omega
    unfold uploadChunkedFile
    simp [mkMedia, uploadLoop, h1, hs]

theorem permanent_error_propagates_without_retry_witness :
    transientStatus 403 = false ∧
    (uploadLoop 5 8 [.err 403] 0 0 = (.raisedHttp 403, [.push 0 5]) ∧
      uploadLoopRam 5 8 [.err 403] 0 = (.raisedHttp 403, [.push 0 5]) ∧
      uploadChunkedFile 5 (chars ("a.txt")) [.err 403] true (.ok 7)
        = .error (classifyHttp 403)) :=
  ⟨by decide,
    permanent_error_propagates_without_retry 5 8 403 0 0 [] (chars ("a.txt")) true (.ok 7)
      (by decide) (by decide)⟩

/-- C4 (code behavior at the failing input): when the destination has
accepted the chunk but the acknowledgement is lost — surfacing as a
transient HTTP 500 — the retry loop resends exactly the same byte range
without ever querying the session's resume cursor; indeed no run of the
loop ever emits a cursor query. -/
theorem resend_after_lost_ack_without_cursor_query :
    (uploadLoop 6 (8 * 1024 * 1024) [.err 500, .ok] 0 0).2
        = [.push 0 6, .push 0 6] ∧
    hasQueryEv (uploadLoop 6 (8 * 1024 * 1024) [.err 500, .ok] 0 0).2 = false ∧
    ∀ total chunk sched cursor attempts,
      hasQueryEv (uploadLoop total chunk sched cursor attempts).2 = false :=
  ⟨by decide, by decide,
    fun total chunk sched cursor attempts =>
      uploadLoop_no_query_ev total chunk sched cursor attempts⟩

/-- C5 counterexample: the retry budget of `upload_chunked_file` is not
replenished after a confirmed chunk.  On a two-chunk upload (10 bytes,
chunk 8) with two transient failures on the first chunk and a single
transient failure on the second, the code raises — while the per-chunk
budget the claim describes (modelled by `uploadLoopPerChunkReset`) would
complete the upload. -/
theorem retry_budget_not_reset_after_confirmed_chunk :
    (uploadLoop 10 8 [.err 500, .err 500, .ok, .err 500, .ok] 0 0).1 = .raisedHttp 500 ∧
    (uploadLoop 10 8 [.err 500, .err 500, .ok, .err 500, .ok] 0 0).1 ≠ .completed ∧
    (uploadLoopPerChunkReset 10 8 [.err 500, .err 500, .ok, .err 500, .ok] 0 0).1
        = .completed := by
  decide

/-- C5 amended: the retry budget is shared by the whole upload — a run
of the retry loop that completes has seen at most `2 - attempts` (with
the counter starting at `attempts`) transient failures in total across
all its chunk pushes; the counter is never reset at a chunk boundary. -/
theorem completed_upload_bounds_total_transient_failures
    (total chunk : Nat) (sched : List ChunkOutcome) (cursor attempts : Nat)
    (h : (uploadLoop total chunk sched cursor attempts).1 = .completed) :
    attempts + transientErrCount
        (sched.take (uploadLoop total chunk sched cursor attempts).2.length) ≤ 2 := by
  induction sched generalizing cursor attempts with
  | nil => simp [uploadLoop] at h
  | cons o rest ih =>
    by_cases hga : 3 ≤ attempts
    · simp [uploadLoop, hga] at h
    · cases o with
      | ok =>
        by_cases hfin : total ≤ cursor + min chunk (total - cursor)
        · simp only [uploadLoop, hga, hfin, if_true, if_false, reduceIte] at h ⊢
          simp [transientErrCount]
          omega
        · simp only [uploadLoop, hga, hfin, if_true, if_false, reduceIte] at h ⊢
          have := ih (cursor + min chunk (total - cursor)) attempts h
          simpa [transientErrCount, List.take_succ_cons] using this
      | err s =>
        by_cases hts : transientStatus s
        · by_cases hc : 3 ≤ attempts + 1
          · simp [uploadLoop, hga, hts, hc] at h
          · simp only [uploadLoop, hga, hts, hc, if_true, if_false, reduceIte] at h ⊢
            have := ih cursor (attempts + 1) h
            simp only [List.length_cons, List.take_succ_cons, transientErrCount, hts,
              if_true, reduceIte] at this ⊢
            omega
        · simp [uploadLoop, hga, hts] at h

theorem completed_upload_bounds_total_transient_failures_witness :
    (uploadLoop 5 8 [.err 500, .ok] 0 0).1 = .completed ∧
    0 + transientErrCount
        (([ChunkOutcome.err 500, .ok]).take
          (uploadLoop 5 8 [.err 500, .ok] 0 0).2.length) ≤ 2 :=
  ⟨by decide,
    completed_upload_bounds_total_transient_failures 5 8 [.err 500, .ok] 0 0 (by decide)⟩

/-- C6: for every handled media message the user sees exactly one
terminal outcome — one success report with the Drive link or one
descriptive error report — whatever the media type, the file size and
the outcomes of the internal stages. -/
theorem exactly_one_terminal_outcome
    (mt : MediaType) (env : TransferEnv) (fs : FS) (fileName : List Char) (fileSize : Nat) :
    (((handleMedia mt env fs fileName fileSize).2.filter isTerminal).length = 1) := by
  obtain ⟨g, d, o, rm⟩ := env
  cases mt <;> cases g <;> cases d <;> rcases o with e | r <;>
    simp [handleMedia, uploadLargeFileStreaming, createTemp, isTerminal]

/-- C7: the staged temporary path is independent of the declared file
name — any two transfers that differ only in the declared name (path
separators and `..` included) stage to the same path, distinct
`tempfile` tokens always give distinct paths, and a second transfer run
on the file system left by a first one stages to a different path than
the first. -/
theorem staged_path_ignores_declared_name :
    (∀ env fs n1 n2, (uploadLargeFileStreaming env fs n1).staged
        = (uploadLargeFileStreaming env fs n2).staged) ∧
    (∀ t1 t2 : Nat, t1 ≠ t2 → namedTemporaryFile t1 ≠ namedTemporaryFile t2) ∧
    (∀ env1 env2 fs n1 n2 p1 p2,
      (uploadLargeFileStreaming env1 fs n1).staged = some p1 →
      (uploadLargeFileStreaming env2 (uploadLargeFileStreaming env1 fs n1).fs n2).staged
          = some p2 →
      p1 ≠ p2) := by
  refine ⟨fun env fs n1 n2 => rfl, ?_, ?_⟩
  · intro t1 t2 h hEq
    exact h (congrArg ScopedPath.token hEq)
  · intro env1 env2 fs n1 n2 p1 p2 h1 h2
    obtain ⟨g1, d1, o1, rm1⟩ := env1
    obtain ⟨g2, d2, o2, rm2⟩ := env2
    cases g1 <;> cases d1 <;> rcases o1 with e1 | r1 <;> cases rm1 <;>
      cases g2 <;> cases d2 <;> rcases o2 with e2 | r2 <;> cases rm2 <;>
      simp only [uploadLargeFileStreaming, createTemp, finallyRemoveStaged,
        Bool.false_eq_true, Bool.true_eq_false, if_true, if_false, reduceIte,
        Option.some.injEq] at h1 h2 <;>
      (try cases h1) <;> (try cases h2) <;>
      (intro hEq;
       have htok := congrArg ScopedPath.token hEq;
       simp only [namedTemporaryFile] at htok;
       omega)

theorem staged_path_ignores_declared_name_witness :
    (0 : Nat) ≠ 1 ∧ namedTemporaryFile 0 ≠ namedTemporaryFile 1 :=
  ⟨by decide, staged_path_ignores_declared_name.2.1 0 1 (by decide)⟩

/-- C8: the MIME type handed to the destination upload is derived from
the declared name by the standard extension lookup; when that lookup
misses and none of the explicit fallback extensions (.jpg/.jpeg, .png,
.pdf, .mp4/.avi/.mov, .mp3, .ogg, .gif) matches, it is the generic
binary type `application/octet-stream`. -/
theorem mime_from_extension_with_octet_default (name : List Char) :
    (∀ t, guessType name = some t → (mkMedia name).mimetype = t) ∧
    (guessType name = none → fallbackExtHit name = false →
      (mkMedia name).mimetype = chars ("application/octet-stream")) := by
  constructor
  · intro t h
    simp [mkMedia, mimeTypeOf, h]
  · intro h hf
    simp only [fallbackExtHit, Bool.or_eq_false_iff] at hf
    obtain ⟨⟨⟨⟨⟨⟨⟨⟨⟨h1, h2⟩, h3⟩, h4⟩, h5⟩, h6⟩, h7⟩, h8⟩, h9⟩, h10⟩ := hf
    simp [mkMedia, mimeTypeOf, h, h1, h2, h3, h4, h5, h6, h7, h8, h9, h10]

theorem mime_from_extension_with_octet_default_witness :
    guessType (chars ("archive.dat7")) = none ∧
    fallbackExtHit (chars ("archive.dat7")) = false ∧
    (mkMedia (chars ("archive.dat7"))).mimetype = chars ("application/octet-stream") :=
  ⟨by decide, by decide,
    (mime_from_extension_with_octet_default (chars ("archive.dat7"))).2
      (by decide) (by decide)⟩

/-- C9 counterexample: a failure of the post-upload permission-setting
step is swallowed — with the permission call failing,
`upload_chunked_file` still returns the success dictionary, so that
failure is neither propagated nor reflected in the reported outcome. -/
theorem permission_failure_swallowed :
    uploadChunkedFile 5 (chars ("a.txt")) [.ok] false (.ok 7) = .ok ⟨7, 5⟩ :=
  rfl

/-- C9 amended: every failure inside `upload_chunked_file` except a
permission-setting failure is reflected in the outcome — the call
succeeds exactly when the chunk loop completes and the link retrieval
succeeds — and the permission step's outcome has no influence at all on
the returned value. -/
theorem outcome_reflects_failures_except_permission
    (fileSize : Nat) (name : List Char) (sched : List ChunkOutcome)
    (permissionOk : Bool) (linkStep : Except Nat Nat) :
    ((∃ r, uploadChunkedFile fileSize name sched permissionOk linkStep = .ok r) ↔
      ((uploadLoop fileSize (8 * 1024 * 1024) sched 0 0).1 = .completed ∧
        ∃ l, linkStep = .ok l)) ∧
    uploadChunkedFile fileSize name sched true linkStep
      = uploadChunkedFile fileSize name sched false linkStep := by
  refine ⟨?_, rfl⟩
  unfold uploadChunkedFile
  simp only [mkMedia]
  cases h : (uploadLoop fileSize (8 * 1024 * 1024) sched 0 0).1 <;>
    cases linkStep <;> simp [h]

/-- C10: no maximum size is enforced at the public interface — for every
supported media kind the transfer runs for every reported size (the
resulting file-system state is exactly that of the streaming transfer),
the messages apart from the warning do not depend on the size, and the
one extra warning appears exactly when the size exceeds 50 MB. -/
theorem size_only_adds_warning_never_gates
    (mt : MediaType) (env : TransferEnv) (fs : FS) (fileName : List Char)
    (s1 s2 : Nat) (h : mt ≠ MediaType.other) :
    (handleMedia mt env fs fileName s1).1 = (uploadLargeFileStreaming env fs fileName).fs ∧
    dropWarnings (handleMedia mt env fs fileName s1).2
      = dropWarnings (handleMedia mt env fs fileName s2).2 ∧
    (Msg.largeFileWarning ∈ (handleMedia mt env fs fileName s1).2 ↔ telegramCap < s1) := by
  obtain ⟨g, d, o, rm⟩ := env
  cases mt <;> first
    | exact absurd rfl h
    | (refine ⟨rfl, ?_, ?_⟩ <;>
        cases g <;> cases d <;> rcases o with e | r <;>
        simp [handleMedia, uploadLargeFileStreaming, createTemp, dropWarnings,
          isWarning] <;>
        (try split) <;> (try split) <;>
        simp [dropWarnings, isWarning])

theorem size_only_adds_warning_never_gates_witness :
    MediaType.document ≠ MediaType.other ∧
    ((handleMedia .document ⟨true, true, .ok ⟨7, 5⟩, true⟩ ⟨[], 0⟩ (chars ("a.bin"))
        (60 * 1024 * 1024)).1
      = (uploadLargeFileStreaming ⟨true, true, .ok ⟨7, 5⟩, true⟩ ⟨[], 0⟩ (chars ("a.bin"))).fs ∧
    dropWarnings (handleMedia .document ⟨true, true, .ok ⟨7, 5⟩, true⟩ ⟨[], 0⟩ (chars ("a.bin"))
        (60 * 1024 * 1024)).2
      = dropWarnings (handleMedia .document ⟨true, true, .ok ⟨7, 5⟩, true⟩ ⟨[], 0⟩ (chars ("a.bin"))
        1024).2 ∧
    (Msg.largeFileWarning ∈ (handleMedia .document ⟨true, true, .ok ⟨7, 5⟩, true⟩ ⟨[], 0⟩
        (chars ("a.bin")) (60 * 1024 * 1024)).2 ↔ telegramCap < 60 * 1024 * 1024)) :=
  ⟨by decide,
    size_only_adds_warning_never_gates .document ⟨true, true, .ok ⟨7, 5⟩, true⟩ ⟨[], 0⟩
      (chars ("a.bin")) (60 * 1024 * 1024) 1024 (by decide)⟩
